import Mathlib

/-!
Verification development for the timesheet-bot roster engine
(`app/service.py`, `app/models.py`, `app/main.py`).

The Python source is shallowly embedded: each regex used by the parser is
hand-compiled into an executable scanner over `List Char`, dataclass records
become a Lean structure with `Option String` fields, and fallible Python
operations (list indexing, attribute lookup, `int(...)`, `strptime`) return
`Except PyErr`.  Machine text stays `String`; clock values and durations are
kept as the raw token strings, exactly as the source does.
-/

set_option maxHeartbeats 1000000

namespace Timesheet

/-- Python exceptions that the embedded code can raise. -/
inductive PyErr where
  | indexError
  | attributeError
  | valueError
  | keyError
  deriving DecidableEq, Repr

instance {ε α : Type} [DecidableEq ε] [DecidableEq α] :
    DecidableEq (Except ε α) := fun x y =>
  match x, y with
  | .ok a, .ok b =>
    if h : a = b then isTrue (by rw [h]) else isFalse (by simpa using h)
  | .error a, .error b =>
    if h : a = b then isTrue (by rw [h]) else isFalse (by simpa using h)
  | .ok _, .error _ => isFalse (by simp)
  | .error _, .ok _ => isFalse (by simp)

/-- Truthiness of an optional string, as Python evaluates `if x:`. -/
def truthyO : Option String → Bool
  | none => false
  | some s => s ≠ ""

/-- Value printed for an optional field inside a Python f-string
(`None` prints as "None"). -/
def fstr : Option String → String
  | none => "None"
  | some s => s

def isDigitChar (c : Char) : Bool := '0' ≤ c && c ≤ '9'

def isUpperChar (c : Char) : Bool := 'A' ≤ c && c ≤ 'Z'

def isAlphaChar (c : Char) : Bool := isUpperChar c || ('a' ≤ c && c ≤ 'z')

/-- Python regex `\w` over the ASCII inputs handled by the engine. -/
def isWordChar (c : Char) : Bool := isDigitChar c || isAlphaChar c || c = '_'

/-- Python regex `\s` (ASCII whitespace). -/
def isPySpace (c : Char) : Bool :=
  c = ' ' || c = '\t' || c = '\n' || c = '\r' || c = '\x0b' || c = '\x0c'

/-- Word boundary test against the character to the left of a match. -/
def boundaryL : Option Char → Bool
  | none => true
  | some c => !isWordChar c

/-- Word boundary test against the remainder to the right of a match. -/
def boundaryR : List Char → Bool
  | [] => true
  | c :: _ => !isWordChar c

/-- `re.findall(r"\b\d{4}\b", line)`: all non-overlapping four-digit tokens. -/
def timesAux : Nat → Option Char → List Char → List String
  | 0, _, _ => []
  | _ + 1, _, [] => []
  | fuel + 1, prev, c1 :: rest =>
    match rest with
    | c2 :: c3 :: c4 :: rest2 =>
      if boundaryL prev && isDigitChar c1 && isDigitChar c2 && isDigitChar c3 &&
          isDigitChar c4 && boundaryR rest2 then
        String.mk [c1, c2, c3, c4] :: timesAux fuel (some c4) rest2
      else
        timesAux fuel (some c1) (c2 :: c3 :: c4 :: rest2)
    | _ => timesAux fuel (some c1) rest

def findallTimes (s : String) : List String :=
  timesAux (s.toList.length + 1) none s.toList

/-- `re.findall(r"\b[A-Z]{3}\b", line)`: three-letter station tokens. -/
def sector3Aux : Nat → Option Char → List Char → List String
  | 0, _, _ => []
  | _ + 1, _, [] => []
  | fuel + 1, prev, c1 :: rest =>
    match rest with
    | c2 :: c3 :: rest2 =>
      if boundaryL prev && isUpperChar c1 && isUpperChar c2 && isUpperChar c3 &&
          boundaryR rest2 then
        String.mk [c1, c2, c3] :: sector3Aux fuel (some c3) rest2
      else
        sector3Aux fuel (some c1) (c2 :: c3 :: rest2)
    | _ => sector3Aux fuel (some c1) rest

def findallSingleSector (s : String) : List String :=
  sector3Aux (s.toList.length + 1) none s.toList

/-- Match `\b\d{2}\s?:\s?\d{2}\b` at the current position (first digit `c1`);
returns the matched text and the remainder after it. -/
def durHere (prev : Option Char) (c1 : Char) (rest : List Char) :
    Option (String × List Char) :=
  if boundaryL prev && isDigitChar c1 then
    match rest with
    | c2 :: ':' :: c5 :: c6 :: r =>
      if isDigitChar c2 && isDigitChar c5 && isDigitChar c6 && boundaryR r then
        some (String.mk [c1, c2, ':', c5, c6], r)
      else none
    | c2 :: w :: ':' :: c5 :: c6 :: r =>
      if isDigitChar c2 && isPySpace w && isDigitChar c5 && isDigitChar c6 &&
          boundaryR r then
        some (String.mk [c1, c2, w, ':', c5, c6], r)
      else none
    | _ => none
  else none

/-- The two patterns above miss `dd:␣dd` and `dd␣:␣dd`; handled here. -/
def durHereSp (prev : Option Char) (c1 : Char) (rest : List Char) :
    Option (String × List Char) :=
  if boundaryL prev && isDigitChar c1 then
    match rest with
    | c2 :: ':' :: w :: c5 :: c6 :: r =>
      if isDigitChar c2 && isPySpace w && isDigitChar c5 && isDigitChar c6 &&
          boundaryR r then
        some (String.mk [c1, c2, ':', w, c5, c6], r)
      else none
    | c2 :: w1 :: ':' :: w2 :: c5 :: c6 :: r =>
      if isDigitChar c2 && isPySpace w1 && isPySpace w2 && isDigitChar c5 &&
          isDigitChar c6 && boundaryR r then
        some (String.mk [c1, c2, w1, ':', w2, c5, c6], r)
      else none
    | _ => none
  else none

/-- `re.findall(r"\b\d{2}\s?:\s?\d{2}\b", line)`. -/
def durAux : Nat → Option Char → List Char → List String
  | 0, _, _ => []
  | _ + 1, _, [] => []
  | fuel + 1, prev, c1 :: rest =>
    match durHere prev c1 rest with
    | some (tok, r) => tok :: durAux fuel (some ':') r
    | none =>
      match durHereSp prev c1 rest with
      | some (tok, r) => tok :: durAux fuel (some ':') r
      | none => durAux fuel (some c1) rest

def findallDurations (s : String) : List String :=
  durAux (s.toList.length + 1) none s.toList

/-- Match `SS\d+` at the current position (`\d+` greedy). -/
def ssHere : List Char → Option String
  | a :: b :: d :: r =>
    if a = 'S' && b = 'S' && isDigitChar d then
      some (String.mk ('S' :: 'S' :: (d :: r).takeWhile isDigitChar))
    else none
  | _ => none

/-- `re.search(r"(SS\d+)|(STBY)", line)`: leftmost match, alternatives tried
in order at each position. -/
def ssAux : Nat → List Char → Option String
  | 0, _ => none
  | _ + 1, [] => none
  | fuel + 1, l@(_ :: rest) =>
    match ssHere l with
    | some t => some t
    | none =>
      if l.take 4 = ['S', 'T', 'B', 'Y'] then some "STBY"
      else ssAux fuel rest

def searchStandby (s : String) : Option String :=
  ssAux (s.toList.length + 1) s.toList

/-- `re.search(r"^(ATDO|AALV|OFFD)$", line)`: the whole (stripped) line is one
of the three codes. -/
def searchOffDuty (s : String) : Option String :=
  if s = "ATDO" || s = "AALV" || s = "OFFD" then some s else none

/-- `re.search(r"\bLO\b", line)` as a Boolean test. -/
def loAux : Nat → Option Char → List Char → Bool
  | 0, _, _ => false
  | _ + 1, _, [] => false
  | fuel + 1, prev, c1 :: rest =>
    match rest with
    | c2 :: rest2 =>
      if c1 = 'L' && c2 = 'O' && boundaryL prev && boundaryR rest2 then true
      else loAux fuel (some c1) (c2 :: rest2)
    | _ => loAux fuel (some c1) rest

def searchLayover (s : String) : Bool :=
  loAux (s.toList.length + 1) none s.toList

/-- `re.search(r"(SQ\s?\d+)", line)`: leftmost `SQ`, one optional whitespace,
then greedy digits; the matched text keeps the whitespace. -/
def fnAux : Nat → List Char → Option String
  | 0, _ => none
  | _ + 1, [] => none
  | fuel + 1, l@(_ :: rest) =>
    match l with
    | 'S' :: 'Q' :: r =>
      (match r with
       | w :: d :: r2 =>
         if isPySpace w && isDigitChar d then
           some (String.mk ('S' :: 'Q' :: w :: d :: r2.takeWhile isDigitChar))
         else if isDigitChar w then
           some (String.mk ('S' :: 'Q' :: w :: (d :: r2).takeWhile isDigitChar))
         else fnAux fuel rest
       | [d] =>
         if isDigitChar d then some (String.mk ['S', 'Q', d])
         else fnAux fuel rest
       | [] => fnAux fuel rest)
    | _ => fnAux fuel rest

def searchFlightNumber (s : String) : Option String :=
  fnAux (s.toList.length + 1) s.toList

/-- After `[A-Z]{3}` and the `-` of the sector pattern: `\s?([A-Z]{3})`.
A consumed whitespace must be followed by the letters (backtracking to the
empty alternative can never succeed on a whitespace character). -/
def sectorTail (g1 : List Char) (r : List Char) : Option (String × String) :=
  let r2 := match r with
    | w :: rest => if isPySpace w then rest else r
    | [] => r
  match r2 with
  | v1 :: v2 :: v3 :: _ =>
    if isUpperChar v1 && isUpperChar v2 && isUpperChar v3 then
      some (String.mk g1, String.mk [v1, v2, v3])
    else none
  | _ => none

/-- Match `([A-Z]{3})\s?-\s?([A-Z]{3})` at the current position. -/
def sectorHere : List Char → Option (String × String)
  | u1 :: u2 :: u3 :: r =>
    if isUpperChar u1 && isUpperChar u2 && isUpperChar u3 then
      match r with
      | '-' :: r2 => sectorTail [u1, u2, u3] r2
      | w :: '-' :: r2 =>
        if isPySpace w then sectorTail [u1, u2, u3] r2 else none
      | _ => none
    else none
  | _ => none

/-- `re.search(r"([A-Z]{3})\s?-\s?([A-Z]{3})", line)`, returning the groups. -/
def secAux : Nat → List Char → Option (String × String)
  | 0, _ => none
  | _ + 1, [] => none
  | fuel + 1, l@(_ :: rest) =>
    match sectorHere l with
    | some p => some p
    | none => secAux fuel rest

def searchSector (s : String) : Option (String × String) :=
  secAux (s.toList.length + 1) s.toList

/-- Match `\d{2}\W?[A-Za-z]{3}\W?\d{2}` at the current position, returning
the matched text.  A consumed `\W` character is never a letter or digit, so
backtracking to the empty alternative cannot rescue a failed continuation. -/
def dateHere (l : List Char) : Option (List Char) :=
  match l with
  | d1 :: d2 :: r =>
    if isDigitChar d1 && isDigitChar d2 then
      let step1 : List Char × List Char := match r with
        | w :: rest => if !isWordChar w then ([w], rest) else ([], r)
        | [] => ([], r)
      match step1.2 with
      | a1 :: a2 :: a3 :: r2 =>
        if isAlphaChar a1 && isAlphaChar a2 && isAlphaChar a3 then
          let step2 : List Char × List Char := match r2 with
            | w :: rest => if !isWordChar w then ([w], rest) else ([], r2)
            | [] => ([], r2)
          match step2.2 with
          | e1 :: e2 :: _ =>
            if isDigitChar e1 && isDigitChar e2 then
              some (d1 :: d2 :: step1.1 ++ [a1, a2, a3] ++ step2.1 ++ [e1, e2])
            else none
          | _ => none
        else none
      | _ => none
    else none
  | _ => none

/-- `re.search(r"\d{2}\W?[A-Za-z]{3}\W?\d{2}", line)`. -/
def dateAux : Nat → List Char → Option (List Char)
  | 0, _ => none
  | _ + 1, [] => none
  | fuel + 1, l@(_ :: rest) =>
    match dateHere l with
    | some m => some m
    | none => dateAux fuel rest

def searchDateTok (s : String) : Option String :=
  (dateAux (s.toList.length + 1) s.toList).map String.mk

/-- Python `str.replace(" ", "")`. -/
def removeSpaces (s : String) : String :=
  String.mk (s.toList.filter (fun c => c ≠ ' '))

/-- Substring containment, for the header-row checks. -/
def startsList : List Char → List Char → Bool
  | [], _ => true
  | _ :: _, [] => false
  | p :: ps, c :: cs => p = c && startsList ps cs

def containsAux : Nat → List Char → List Char → Bool
  | 0, _, _ => false
  | _ + 1, pat, [] => startsList pat []
  | fuel + 1, pat, l@(_ :: rest) =>
    startsList pat l || containsAux fuel pat rest

def containsSub (s pat : String) : Bool :=
  containsAux (s.toList.length + 1) pat.toList s.toList

/-! ### Calendar dates (`datetime.date`, `strptime`, `strftime`, `timedelta`) -/

structure Date where
  year : Nat
  month : Nat
  day : Nat
  deriving DecidableEq, Repr

def isLeapYear (y : Nat) : Bool := (y % 4 = 0 && y % 100 ≠ 0) || y % 400 = 0

def daysInMonth (y m : Nat) : Nat :=
  if m = 2 then (if isLeapYear y then 29 else 28)
  else if m = 4 || m = 6 || m = 9 || m = 11 then 30
  else 31

/-- Days since 0000-03-01 (era-based civil-calendar encoding); valid for the
Gregorian dates the engine handles. -/
def daysFromCivil (d : Date) : Nat :=
  let y := if d.month ≤ 2 then d.year - 1 else d.year
  let era := y / 400
  let yoe := y % 400
  let mp := (d.month + 9) % 12
  let doy := (153 * mp + 2) / 5 + d.day - 1
  let doe := yoe * 365 + yoe / 4 - yoe / 100 + doy
  era * 146097 + doe

def civilFromDays (n : Nat) : Date :=
  let era := n / 146097
  let doe := n % 146097
  let yoe := (doe - doe / 1460 + doe / 36524 - doe / 146096) / 365
  let y := yoe + era * 400
  let doy := doe - (365 * yoe + yoe / 4 - yoe / 100)
  let mp := (5 * doy + 2) / 153
  let dd := doy - (153 * mp + 2) / 5 + 1
  let m := if mp < 10 then mp + 3 else mp - 9
  if m ≤ 2 then ⟨y + 1, m, dd⟩ else ⟨y, m, dd⟩

/-- `d + datetime.timedelta(days = k)`.  Adding zero days is the identity,
matching Python directly; otherwise go through the day count. -/
def addDays (d : Date) (k : Nat) : Date :=
  if k = 0 then d else civilFromDays (daysFromCivil d + k)

def lowCh (c : Char) : Char :=
  if isUpperChar c then Char.ofNat (c.toNat + 32) else c

def monthAbbrevs : List String :=
  ["jan", "feb", "mar", "apr", "may", "jun",
   "jul", "aug", "sep", "oct", "nov", "dec"]

def monthOfAbbrev (a : String) : Option Nat :=
  match monthAbbrevs.indexOf? a with
  | some i => some (i + 1)
  | none => none

def digitVal (c : Char) : Nat := c.toNat - '0'.toNat

/-- `datetime.datetime.strptime(date_str, "%d%b%y").date()` on the seven
character `DDMonYY` strings the date regex produces (month abbreviation
matched case-insensitively, `%y` mapped to 1969–2068); anything else raises
`ValueError`. -/
def _parse_date_str (s : String) : Except PyErr Date :=
  match s.toList with
  | [d1, d2, a1, a2, a3, y1, y2] =>
    if isDigitChar d1 && isDigitChar d2 && isDigitChar y1 && isDigitChar y2 then
      match monthOfAbbrev (String.mk [lowCh a1, lowCh a2, lowCh a3]) with
      | some m =>
        let day := 10 * digitVal d1 + digitVal d2
        let yy := 10 * digitVal y1 + digitVal y2
        let year := if 69 ≤ yy then 1900 + yy else 2000 + yy
        if 1 ≤ day && day ≤ daysInMonth year m then .ok ⟨year, m, day⟩
        else .error .valueError
      | none => .error .valueError
    else .error .valueError
  | _ => .error .valueError

def pad2 (n : Nat) : String := if n < 10 then "0" ++ toString n else toString n

def monthAbbrevCap : List String :=
  ["Jan", "Feb", "Mar", "Apr", "May", "Jun",
   "Jul", "Aug", "Sep", "Oct", "Nov", "Dec"]

def monthUpperNames : List String :=
  ["JANUARY", "FEBRUARY", "MARCH", "APRIL", "MAY", "JUNE",
   "JULY", "AUGUST", "SEPTEMBER", "OCTOBER", "NOVEMBER", "DECEMBER"]

/-- `d.strftime("%d%b")`. -/
def fmtDdMon (d : Date) : String :=
  pad2 d.day ++ monthAbbrevCap.getD (d.month - 1) ""

/-- `d.strftime("%d%b%y")`. -/
def fmtDdMonYy (d : Date) : String :=
  fmtDdMon d ++ pad2 (d.year % 100)

/-- `d.strftime("%m/%d/%Y")`. -/
def fmtMDY (d : Date) : String :=
  pad2 d.month ++ "/" ++ pad2 d.day ++ "/" ++ toString d.year

/-- `d.strftime("%B").upper()`. -/
def monthUpperName (d : Date) : String := monthUpperNames.getD (d.month - 1) ""

/-! ### The `FlightRow` record (`app/models.py`) -/

/-- The `FlightRow` dataclass: `start_date` is required, every other field
defaults to `None`. -/
structure FlightRow where
  start_date : String
  arrival_date : Option String := none
  flight_number : Option String := none
  sector : Option String := none
  origin : Option String := none
  destination : Option String := none
  duty_type : Option String := none
  rpt : Option String := none
  std : Option String := none
  sta : Option String := none
  flight_time : Option String := none
  duty_time : Option String := none
  fdp : Option String := none
  raw_block : Option String := none
  deriving DecidableEq, Repr

/-! ### Row parser (`service._parse_row`) -/

def isHeaderLine (line : String) : Bool :=
  containsSub line "Start Day Flight" || containsSub line "Date Number Duty"

/-- `same_flight_as_prev` from `_parse_row`. -/
def sameFlightAsPrev (prev : Option FlightRow) (fn origin dest : String) : Bool :=
  match prev with
  | none => false
  | some p =>
    p.duty_type ≠ some "LO" && p.flight_number = some fn &&
      p.sector = some (origin ++ "-" ++ dest)

/-- `is_turnaround` from `_parse_row`. -/
def isTurnaroundPrev (prev : Option FlightRow) (fn origin dest date : String) : Bool :=
  match prev with
  | none => false
  | some p =>
    p.duty_type = some "FLY" && truthyO p.flight_number && fn ≠ "" &&
      p.origin = some dest && p.destination = some origin &&
      p.start_date = date

/-- Does the previous entry have a (truthy) report time but no departure
time (`prev.rpt and not prev.std`)? -/
def prevHasRptNoStd (prev : Option FlightRow) : Bool :=
  match prev with
  | none => false
  | some p => truthyO p.rpt && !truthyO p.std

/-- `prev.sta` is falsy (`not prev.sta`). -/
def prevNoSta (prev : Option FlightRow) : Bool :=
  match prev with
  | none => true
  | some p => !truthyO p.sta

/-- The time-token assignment of the flight branch of `_parse_row`:
given the counts and context, distribute the four-digit tokens over
(rpt, std, sta). -/
def assignTimes (sameF turn : Bool) (prev : Option FlightRow)
    (origin dest : String) (times : List String) :
    Option String × Option String × Option String :=
  match times with
  | t1 :: t2 :: t3 :: _ => (some t1, some t2, some t3)
  | [t1, t2] =>
    if sameF then
      if prevHasRptNoStd prev then (none, some t1, some t2)
      else (none, none, none)
    else if turn then (none, some t1, some t2)
    else if origin = "SIN" then (some t1, some t2, none)
    else (some t1, some t2, none)
  | [t1] =>
    if sameF then
      if prevNoSta prev then (none, none, some t1) else (none, none, none)
    else if turn then (none, some t1, none)
    else if dest = "SIN" then (none, none, some t1)
    else (some t1, none, none)
  | [] => (none, none, none)

/-- The duration-token assignment of the flight branch of `_parse_row`:
distribute the `HH:MM` tokens over (flight_time, duty_time, fdp).  `sta`
is the arrival time the time-assignment step just produced.  The `D ≥ 3`
branch is the unguarded unpacking `flight_time, duty_time, fdp =
durations`, which raises `ValueError` when the line carries four or more
duration tokens. -/
def assignDurations (sameF turn : Bool) (timesLen : Nat) (sta : Option String)
    (durations : List String) :
    Except PyErr (Option String × Option String × Option String) :=
  match durations with
  | [d1, d2, d3] => .ok (some d1, some d2, some d3)
  | _ :: _ :: _ :: _ :: _ => .error .valueError
  | [d1, d2] => .ok (none, some d1, some d2)
  | [d1] =>
    if sameF then .ok (none, none, some d1)
    else if turn then .ok (some d1, none, none)
    else if timesLen = 1 && truthyO sta then .ok (none, none, some d1)
    else .ok (some d1, none, none)
  | [] => .ok (none, none, none)

/-- The `sector` expression of the standby branch:
`sector[0] if sector[0] == 'SIN' else prev.sector if prev and (prev.sector
!= 'SIN' or prev.destination != 'SIN') else None`. -/
def standbySector (s0 : String) (prev : Option FlightRow) : Option String :=
  if s0 = "SIN" then some s0
  else
    match prev with
    | some p =>
      if p.sector ≠ some "SIN" || p.destination ≠ some "SIN" then p.sector
      else none
    | none => none

/-- `_parse_row(date, line, prev)`.  The standby branch indexes `sector[0]`
before checking the list is non-empty, so a standby line with no
three-uppercase-letter token raises `IndexError`. -/
def _parse_row (date line : String) (prev : Option FlightRow) :
    Except PyErr (Option FlightRow) :=
  if isHeaderLine line then .ok none
  else
    match searchStandby line with
    | some dutyTok =>
      let times := findallTimes line
      let durations := findallDurations line
      match findallSingleSector line with
      | [] => .error .indexError
      | s0 :: _ =>
        .ok (some
          { start_date := date
            flight_number := none
            sector := standbySector s0 prev
            origin := none
            destination := none
            duty_type := some dutyTok
            rpt := times.get? 0
            std := times.get? 1
            sta := times.get? 2
            duty_time := durations.get? 0
            fdp := durations.get? 1 })
    | none =>
      match searchOffDuty line with
      | some offTok =>
        .ok (some
          { start_date := date
            flight_number := none
            sector := some "SIN"
            origin := none
            destination := none
            duty_type := some offTok })
      | none =>
        if searchLayover line then
          .ok (some
            { start_date := date
              flight_number := none
              sector := (findallSingleSector line).head?
              origin := none
              destination := none
              duty_type := some "LO" })
        else
          match searchFlightNumber line, searchSector line with
          | some fnRaw, some (origin, dest) =>
            let fn := removeSpaces fnRaw
            let sameF := sameFlightAsPrev prev fn origin dest
            let turn := isTurnaroundPrev prev fn origin dest date
            let times := findallTimes line
            let durations := findallDurations line
            let ts := assignTimes sameF turn prev origin dest times
            match assignDurations sameF turn times.length ts.2.2 durations with
            | .error err => .error err
            | .ok ds =>
            .ok (some
              { start_date := date
                flight_number := some fn
                sector := some (origin ++ "-" ++ dest)
                origin := some origin
                destination := some dest
                duty_type := some "FLY"
                rpt := ts.1
                std := ts.2.1
                sta := ts.2.2
                flight_time := ds.1
                duty_time := ds.2.1
                fdp := ds.2.2
                raw_block := some line })
          | _, _ => .ok none

/-! ### `service.parse_timesheet` -/

structure ParseResult where
  entries : List FlightRow
  raw_text : String
  deriving DecidableEq, Repr

/-- Python `str.strip()`. -/
def pyStrip (s : String) : String :=
  String.mk ((((s.toList.dropWhile isPySpace).reverse.dropWhile isPySpace).reverse))

/-- Python `str.splitlines()` for newline-separated text. -/
def splitNLAux : List Char → List Char → List String
  | acc, [] => [String.mk acc.reverse]
  | acc, c :: r =>
    if c = '\n' then String.mk acc.reverse :: splitNLAux [] r
    else splitNLAux (c :: acc) r

def splitNL (s : String) : List String :=
  match s.toList with
  | [] => []
  | l => splitNLAux [] l

def parseLoop : Option String → List FlightRow → List String →
    Except PyErr (List FlightRow)
  | _, acc, [] => .ok acc
  | cur, acc, line :: rest =>
    let cur' := match searchDateTok line with
      | some dtok => some (removeSpaces dtok)
      | none => cur
    match cur' with
    | none => parseLoop none acc rest
    | some currentDate => do
      let prev := acc.getLast?
      let entry ← _parse_row currentDate line prev
      match entry with
      | some e => parseLoop (some currentDate) (acc ++ [e]) rest
      | none => parseLoop (some currentDate) acc rest

/-- `parse_timesheet(text)`: strip and drop blank lines, then fold
`_parse_row` over them carrying the current date and previous entry. -/
def parse_timesheet (text : String) : Except PyErr ParseResult := do
  let lines := ((splitNL text).map pyStrip).filter (fun l => l ≠ "")
  let entries ← parseLoop none [] lines
  .ok { entries := entries, raw_text := text }

/-! ### Trip grouper (`service.group_trips`) -/

/-- Python `duty and duty.startswith("SS")`. -/
def isSSDuty : Option String → Bool
  | none => false
  | some s =>
    match s.toList with
    | 'S' :: 'S' :: _ => true
    | _ => false

/-- The loop of `group_trips`, carrying the accumulated `trips` and the
open `current` trip. -/
def groupLoop : List (List FlightRow) → List FlightRow → List FlightRow →
    List (List FlightRow)
  | trips, current, [] => if current ≠ [] then trips ++ [current] else trips
  | trips, current, e :: es =>
    if isSSDuty e.duty_type then
      groupLoop (trips ++ (if current ≠ [] then [current] else []) ++ [[e]]) [] es
    else if e.duty_type ≠ some "FLY" then groupLoop trips current es
    else if e.origin ≠ some "SIN" ∧ e.destination = some "SIN" ∧ current = [] then
      groupLoop (trips ++ [[e]]) [] es
    else if e.origin = some "SIN" ∧ current = [] then
      groupLoop trips [e] es
    else if current ≠ [] then
      if e.destination = some "SIN" ∧ truthyO e.sta then
        groupLoop (trips ++ [current ++ [e]]) [] es
      else groupLoop trips (current ++ [e]) es
    else groupLoop trips current es

def group_trips (entries : List FlightRow) : List (List FlightRow) :=
  groupLoop [] [] entries

/-- The entries `group_trips` keeps, collected in order by the same state
machine (the Boolean is whether a trip is open). -/
def keptEntries (openTrip : Bool) : List FlightRow → List FlightRow
  | [] => []
  | e :: es =>
    if isSSDuty e.duty_type then e :: keptEntries false es
    else if e.duty_type ≠ some "FLY" then keptEntries openTrip es
    else if e.origin ≠ some "SIN" ∧ e.destination = some "SIN" ∧ openTrip = false then
      e :: keptEntries false es
    else if e.origin = some "SIN" ∧ openTrip = false then
      e :: keptEntries true es
    else if openTrip = true then
      e :: keptEntries (!(e.destination = some "SIN" ∧ truthyO e.sta)) es
    else keptEntries false es

/-! ### Continuation merger

`app/main.py` runs `parse_timesheet` straight into `group_trips`; no merge
pass exists anywhere in the repository sources.  Modelled from the spec. -/

/-- Modelled from the spec: the missing Continuation Merger's fold condition.
"A later entry is a continuation of the immediately preceding kept entry
when both share flight number and sector"; the fold applies when "the
continuation supplies only an arrival time (no departure) and the preceding
entry lacks an arrival". -/
def foldsInto (p e : FlightRow) : Bool :=
  p.flight_number.isSome && p.flight_number = e.flight_number &&
    p.sector = e.sector && truthyO e.sta && !truthyO e.std && !truthyO p.sta

/-- Modelled from the spec: the missing Continuation Merger, a "single
left-to-right pass with a trailing accumulator" that copies the arrival
time onto the preceding entry, sets its `arrival_date` to the
continuation's date, and drops the continuation row. -/
def mergeLoop : List FlightRow → List FlightRow → List FlightRow
  | acc, [] => acc
  | acc, e :: rest =>
    match acc.getLast? with
    | some p =>
      if foldsInto p e then
        mergeLoop (acc.dropLast ++
          [{ p with sta := e.sta, arrival_date := some e.start_date }]) rest
      else mergeLoop (acc ++ [e]) rest
    | none => mergeLoop [e] rest

/-- Modelled from the spec: `merge(entries) → entries'` (§4.2). -/
def mergeEntries (entries : List FlightRow) : List FlightRow :=
  mergeLoop [] entries

/-! ### Message renderer (`service.trips_to_message`) -/

/-- `e.get("duty_type", "").startswith("SS")`. -/
def dutyStartsSS (e : FlightRow) : Bool := isSSDuty e.duty_type

/-- `_trip_end_date(trip)`: the effective end date string of a trip. -/
def _trip_end_date (trip : List FlightRow) : Except PyErr String :=
  let fly := trip.filter (fun e => e.duty_type = some "FLY")
  match fly.getLast? with
  | none =>
    match trip.getLast? with
    | some lastE => .ok lastE.start_date
    | none => .error .indexError
  | some last => do
    let d ← _parse_date_str (last.arrival_date.getD last.start_date)
    .ok (fmtDdMonYy d)

/-- One trip's contribution to the message (the body of the loop in
`trips_to_message`). -/
def messageLineFor (trip : List FlightRow) (acc : List String) :
    Except PyErr (List String) :=
  match trip with
  | [] => .ok acc
  | e0 :: _ => do
    let startD ← _parse_date_str e0.start_date
    let start := fmtDdMon startD
    if dutyStartsSS e0 then do
      let endD ← _parse_date_str ((trip.getLast?.getD e0).start_date)
      .ok (acc ++ [start ++ " - " ++ fmtDdMon endD ++ " | " ++
        fstr e0.duty_type ++ " | " ++ e0.rpt.getD "-" ++ " | " ++
        e0.sta.getD "-"])
    else
      let fly := trip.filter (fun e => e.duty_type = some "FLY")
      match fly with
      | [] => .ok acc
      | first :: _ => do
        let endStr ← _trip_end_date trip
        let endD ← _parse_date_str endStr
        let endS := fmtDdMon endD
        if first.origin ≠ some "SIN" ∧ first.destination = some "SIN" then
          .ok (acc ++ [start ++ " - " ++ endS ++ " | " ++ fstr first.sector ++
            " | - | " ++ first.sta.getD "-" ++ " (" ++
            first.flight_number.getD "" ++ ")"])
        else
          match fly.find? (fun e => e.origin = some "SIN"),
              fly.reverse.find? (fun e => e.destination = some "SIN") with
          | some outbound, some inbound =>
            .ok (acc ++ [start ++ " - " ++ endS ++ " | " ++
              fstr outbound.destination ++ " | " ++ outbound.rpt.getD "-" ++
              " (" ++ outbound.flight_number.getD "" ++ ") | " ++
              inbound.sta.getD "-" ++ " (" ++ inbound.flight_number.getD "" ++
              ")"])
          | _, _ => .ok acc

/-- `trips_to_message(trips)`. -/
def trips_to_message (trips : List (List FlightRow)) : Except PyErr String :=
  match trips with
  | [] => .ok "No trips found."
  | t0 :: _ =>
    match t0 with
    | [] => .ok "No trips found."
    | e00 :: _ => do
      let firstDate ← _parse_date_str e00.start_date
      let header := "Flights for *" ++ monthUpperName firstDate ++ " " ++
        toString firstDate.year ++ "*:"
      let lines ← trips.foldlM (fun acc trip => messageLineFor trip acc) [header]
      .ok (String.intercalate "\n" lines)

/-! ### Sheet-row renderer (`service.trips_to_sheet_rows`) -/

/-- A cell of the 13-column row matrix.  `num h m` stands for the Python
float `round(int(h) + int(m)/60, 2)` produced by `_decimal_hours`; the
claims only ever distinguish populated cells from blank ones, so the float
is kept symbolically as its two operand strings.  `pyNone` is a `None`
stored in a row (the `station` of a day with no home-base leg). -/
inductive Cell where
  | str (s : String)
  | num (h m : String)
  | pyNone
  deriving DecidableEq, Repr

def cellOfOpt : Option String → Cell
  | some s => .str s
  | none => .pyNone

/-- `_format_time(t)`. -/
def _format_time : Option String → String
  | none => ""
  | some t =>
    if t = "" then ""
    else String.mk (t.toList.take 2) ++ ":" ++ String.mk (t.toList.drop 2)

/-- Split on `':'` (Python `str.split(":")`). -/
def splitColonAux : List Char → List Char → List String
  | acc, [] => [String.mk acc.reverse]
  | acc, c :: r =>
    if c = ':' then String.mk acc.reverse :: splitColonAux [] r
    else splitColonAux (c :: acc) r

/-- `_split_duration(hhmm)`; unpacking `h, m = hhmm.split(":")` raises
`ValueError` when the split does not yield exactly two parts. -/
def _split_duration : Option String → Except PyErr (String × String)
  | none => .ok ("", "")
  | some s =>
    if s = "" then .ok ("", "")
    else if !(s.toList.contains ':') then .ok ("", "")
    else
      match splitColonAux [] s.toList with
      | [h, m] => .ok (h, m)
      | _ => .error .valueError

/-- Python `int(s)` on the strings the engine handles: surrounding
whitespace is tolerated, anything that is not then a non-empty digit run
raises `ValueError`. -/
def pyInt (s : String) : Except PyErr Nat :=
  let t := (pyStrip s).toList
  if t ≠ [] && t.all isDigitChar then
    .ok (t.foldl (fun acc c => 10 * acc + digitVal c) 0)
  else .error .valueError

/-- `_decimal_hours(h, m)`: `""` on a falsy part, otherwise
`round(int(h) + int(m)/60, 2)` — which raises `ValueError` through `int`
on non-numeric parts.  The float is kept symbolically as its two operand
strings (`Cell.num`). -/
def _decimal_hours (h m : String) : Except PyErr Cell :=
  if h = "" || m = "" then .ok (.str "")
  else do
    let _ ← pyInt h
    let _ ← pyInt m
    .ok (.num h m)

/-- `_is_overnight(entry)`: both `rpt` and `sta` truthy and
`int(sta) < int(rpt)`. -/
def _is_overnight (e : FlightRow) : Except PyErr Bool :=
  if truthyO e.rpt && truthyO e.sta then do
    let sv ← pyInt (e.sta.getD "")
    let rv ← pyInt (e.rpt.getD "")
    .ok (decide (sv < rv))
  else .ok false

/-- The insertion-ordered `fly_by_date` dictionary. -/
def dictAppend (k : Date) (v : FlightRow) :
    List (Date × List FlightRow) → List (Date × List FlightRow)
  | [] => [(k, [v])]
  | (k', vs) :: rest =>
    if k' = k then (k', vs ++ [v]) :: rest else (k', vs) :: dictAppend k v rest

def dictGet (k : Date) (m : List (Date × List FlightRow)) : List FlightRow :=
  match m.find? (fun p => p.1 = k) with
  | some p => p.2
  | none => []

/-- `row[2] == last_flight.get("destination")`: a stored cell compared with
an optional string by Python `==` (`None == None` is `True`). -/
def cellEqOpt : Option Cell → Option String → Bool
  | some (.str s), some t => s = t
  | some .pyNone, none => true
  | _, _ => false

def wipeRow (r : List Cell) : List Cell :=
  ((((r.set 8 (.str "")).set 9 (.str "")).set 10 (.str "")).set 11
    (.str "")).set 12 (.str "")

/-- Write the five duty/flight columns; `c` is the already-computed
decimal-hours cell (column 10). -/
def setDur (dh dm : String) (c : Cell) (fh fm : String) (r : List Cell) :
    List Cell :=
  ((((r.set 8 (.str dh)).set 9 (.str dm)).set 10 c).set 11
    (.str fh)).set 12 (.str fm)

def updateFirstMatchingM (p : List Cell → Bool)
    (f : List Cell → Except PyErr (List Cell)) :
    List (List Cell) → Except PyErr (List (List Cell))
  | [] => .ok []
  | r :: rs =>
    if p r then do
      let r' ← f r
      .ok (r' :: rs)
    else do
      let rs' ← updateFirstMatchingM p f rs
      .ok (r :: rs')

/-- `for row in reversed(trip_rows): if ...: mutate; break` — the mutation
itself evaluates `_decimal_hours` and so can raise, but only when a row
matches. -/
def updateLastMatchingM (p : List Cell → Bool)
    (f : List Cell → Except PyErr (List Cell))
    (rows : List (List Cell)) : Except PyErr (List (List Cell)) := do
  let rev ← updateFirstMatchingM p f rows.reverse
  .ok rev.reverse

/-- The turnaround branch of the per-day loop: one `Turnaround` row per
flight of the day. -/
def turnRowsFor (dateStr : String) (es : List FlightRow) :
    Except PyErr (List (List Cell)) :=
  es.foldlM (fun acc e => do
    let dep := e.origin.getD ""
    let arr := e.destination.getD ""
    let rpt := _format_time e.rpt
    let sta := _format_time e.sta
    let std := _format_time e.std
    let (dh, dm) ← _split_duration e.duty_time
    let (fh, fm) ← _split_duration e.flight_time
    let c ← _decimal_hours dh dm
    let cells :=
      if dep = "SIN" then
        [Cell.str dateStr, .str dep, .str arr, .str "Turnaround", .str rpt,
         .str sta, .str "", .str "", .str dh, .str dm, c, .str fh, .str fm]
      else
        [Cell.str dateStr, .str dep, .str arr, .str "Turnaround", .str "",
         .str "", .str std, .str sta, .str dh, .str dm, c, .str fh, .str fm]
    .ok (acc ++ [cells])) []

/-- The body of `for d in all_dates`, producing this trip's rows and the
`added_dates` set (modelled as a list queried by membership). -/
def dayStep (turnaround : Bool) (station : Option String)
    (flyByDate : List (Date × List FlightRow))
    (st : List (List Cell) × List String) (d : Date) :
    Except PyErr (List (List Cell) × List String) := do
  let rows := st.1
  let added := st.2
  let dateStr := fmtMDY d
  let today := dictGet d flyByDate
  if turnaround ∧ today ≠ [] then do
    let newRows ← turnRowsFor dateStr today
    .ok (rows ++ newRows, added ++ [dateStr])
  else
    match today with
    | e :: _ => do
      let dep := e.origin.getD ""
      let arr := e.destination.getD ""
      let rpt := _format_time e.rpt
      let sta := _format_time e.sta
      let (dh, dm) ← _split_duration e.duty_time
      let (fh, fm) ← _split_duration e.flight_time
      if dep = "SIN" then do
        let ov ← _is_overnight e
        if ov then
          let arrivalStr := fmtMDY (addDays d 1)
          let c ← _decimal_hours dh dm
          .ok (rows ++
            [[Cell.str dateStr, .str dep, .str arr, .str "Layover", .str rpt,
              .str "-", .str "", .str "", .str "", .str "", .str "", .str "",
              .str ""],
             [Cell.str arrivalStr, .str "", .str arr, .str "Layover", .str "",
              .str sta, .str "", .str "", .str dh, .str dm, c, .str fh,
              .str fm]],
            added ++ [dateStr, arrivalStr])
        else
          .ok (rows ++
            [[Cell.str dateStr, .str dep, .str arr, .str "Layover", .str rpt,
              .str sta, .str "", .str "", .str "", .str "", .str "", .str "",
              .str ""]], added ++ [dateStr])
      else if arr = "SIN" then do
        let ov ← _is_overnight e
        if ov then
          let arrivalStr := fmtMDY (addDays d 1)
          let c ← _decimal_hours dh dm
          .ok (rows ++
            [[Cell.str dateStr, .str "", cellOfOpt station, .str "Layover",
              .str "", .str "", .str rpt, .str "", .str dh, .str dm, c,
              .str fh, .str fm],
             [Cell.str arrivalStr, .str dep, .str arr, .str "Layover", .str "",
              .str "-", .str "", .str sta, .str "", .str "", .str "", .str "",
              .str ""]], added ++ [dateStr, arrivalStr])
        else
          let c ← _decimal_hours dh dm
          .ok (rows ++
            [[Cell.str dateStr, .str dep, .str arr, .str "Layover", .str "",
              .str "", .str rpt, .str sta, .str dh, .str dm, c, .str fh,
              .str fm]], added ++ [dateStr])
      else .ok (rows, added)
    | [] =>
      if dateStr ∈ added then .ok (rows, added)
      else
        .ok (rows ++
          [[Cell.str dateStr, .str "", cellOfOpt station, .str "Layover",
            .str "", .str "", .str "", .str "", .str "", .str "", .str "",
            .str "", .str ""]], added)

/-- The wipe-then-populate pass over this trip's rows (columns I–M live at
indices 8–12). -/
def populateTrip (tripRows : List (List Cell)) (fly : List FlightRow) :
    Except PyErr (List (List Cell)) :=
  match tripRows with
  | [] => .ok []
  | r0 :: rest =>
    match fly with
    | [] => .ok (r0 :: rest)
    | firstF :: _ => do
      let wiped := (r0 :: rest).map wipeRow
      let (dh, dm) ← _split_duration firstF.duty_time
      let (fh, fm) ← _split_duration firstF.flight_time
      let c1 ← _decimal_hours dh dm
      let wiped2 := match wiped with
        | w0 :: ws => setDur dh dm c1 fh fm w0 :: ws
        | [] => []
      let lastF := fly.getLast?.getD firstF
      let (dh2, dm2) ← _split_duration lastF.duty_time
      let (fh2, fm2) ← _split_duration lastF.flight_time
      updateLastMatchingM (fun r => cellEqOpt (r.get? 2) lastF.destination)
        (fun r => do
          let c2 ← _decimal_hours dh2 dm2
          .ok (setDur dh2 dm2 c2 fh2 fm2 r)) wiped2

/-- One trip's contribution to the sheet (the body of the loop in
`trips_to_sheet_rows`). -/
def sheetTrip (rows : List (List Cell)) (trip : List FlightRow) :
    Except PyErr (List (List Cell)) := do
  let fly := trip.filter (fun e => e.duty_type = some "FLY")
  match fly with
  | [] => .ok rows
  | f0 :: _ =>
    if fly.length = 1 ∧ f0.origin ≠ some "SIN" ∧ f0.destination = some "SIN" then do
      let d ← _parse_date_str f0.start_date
      let (dh, dm) ← _split_duration f0.duty_time
      let (fh, fm) ← _split_duration f0.flight_time
      let c ← _decimal_hours dh dm
      .ok (rows ++
        [[Cell.str (fmtMDY d), .str (f0.origin.getD ""),
          .str (f0.destination.getD ""), .str "Layover", .str "", .str "-",
          .str "", .str (_format_time f0.sta), .str dh, .str dm, c, .str fh,
          .str fm]])
    else do
      let startD ← _parse_date_str f0.start_date
      let lastF := fly.getLast?.getD f0
      let endD ←
        match lastF.arrival_date with
        | some ad => do
          let e ← _parse_date_str ad
          -- the source also computes (and never uses) last_is_overnight_inbound,
          -- whose _is_overnight call can raise
          if lastF.destination = some "SIN" then do
            let _ ← _is_overnight lastF
            pure e
          else pure e
        | none => _parse_date_str lastF.start_date
      let turnaround := decide (fly.length = 2) &&
        (match fly with
         | a :: b :: _ => decide (a.start_date = b.start_date)
         | _ => false)
      let station := if f0.origin = some "SIN" then f0.destination else f0.origin
      let flyByDate ← fly.foldlM (fun m e => do
        let d ← _parse_date_str e.start_date
        pure (dictAppend d e m)) []
      let span := ((daysFromCivil endD : Int) - daysFromCivil startD + 1).toNat
      let allDates := (List.range span).map (fun i => addDays startD i)
      let tripState ← allDates.foldlM (dayStep turnaround station flyByDate) ([], [])
      let finalRows ← populateTrip tripState.1 fly
      .ok (rows ++ finalRows)

/-- `trips_to_sheet_rows(trips)`. -/
def trips_to_sheet_rows (trips : List (List FlightRow)) :
    Except PyErr (List (List Cell)) :=
  trips.foldlM sheetTrip []

/-! ### The pipeline as wired in `app/main.py` -/

/-- The slot names of the `FlightRow` dataclass (`@dataclass(slots=True)`
declares exactly the listed fields; no `get` method or attribute exists). -/
def flightRowSlots : List String :=
  ["start_date", "arrival_date", "flight_number", "sector", "origin",
   "destination", "duty_type", "rpt", "std", "sta", "flight_time",
   "duty_time", "fdp", "raw_block"]

/-- Attribute lookup on a `FlightRow` instance: anything outside the slots
raises `AttributeError`. -/
def flightRowGetattr (attr : String) : Except PyErr Unit :=
  if attr ∈ flightRowSlots then .ok () else .error .attributeError

/-- `group_trips(parsed["entries"])` as called from `telegram_webhook`:
the loop body's first operation on each entry is the method lookup
`e.get`, which on a slots dataclass raises `AttributeError`; were the
lookup to succeed, the loop would compute `group_trips`. -/
def group_trips_from_main (entries : List FlightRow) :
    Except PyErr (List (List FlightRow)) :=
  match entries with
  | [] => .ok (group_trips [])
  | _ :: _ => do
    let _ ← flightRowGetattr "get"
    .ok (group_trips entries)

/-- The OCR-to-message pipeline of `telegram_webhook` (`app/main.py`
lines 109–112). -/
def run_pipeline (text : String) : Except PyErr String := do
  let parsed ← parse_timesheet text
  let trips ← group_trips_from_main parsed.entries
  trips_to_message trips

/-! ## Concrete inputs used by the individual claims -/

/-- Scenario text of §8: four roster lines. -/
def c1text : String := "01Jan25\nSQ123 SIN-HKG 0900 1015\n02Jan25\nSQ124 HKG-SIN 1800"

def c4text : String := "01Jan25\nSQ123 SIN-HKG 0900 1015\n02Jan25\nSQ124 HKG-SIN 1800"

/-- The first entry `parse_timesheet` produces from `c4text`. -/
def c4e1 : FlightRow :=
  { start_date := "01Jan25", flight_number := some "SQ123",
    sector := some "SIN-HKG", origin := some "SIN", destination := some "HKG",
    duty_type := some "FLY", rpt := some "0900", std := some "1015",
    raw_block := some "SQ123 SIN-HKG 0900 1015" }

/-- The second entry `parse_timesheet` produces from `c4text`. -/
def c4e2 : FlightRow :=
  { start_date := "02Jan25", flight_number := some "SQ124",
    sector := some "HKG-SIN", origin := some "HKG", destination := some "SIN",
    duty_type := some "FLY", sta := some "1800",
    raw_block := some "SQ124 HKG-SIN 1800" }

/-- The message the code actually renders for `c4text`. -/
def c4msg : String :=
  "Flights for *JANUARY 2025*:\n01Jan - 02Jan | HKG | 0900 (SQ123) | 1800 (SQ124)"

/-- A standby entry carrying the `STBY` literal duty code. -/
def c2stby : FlightRow :=
  { start_date := "05Jan25", sector := some "SIN", duty_type := some "STBY",
    rpt := some "0600" }

/-- Outbound leg of a same-day turnaround. -/
def c3a : FlightRow :=
  { start_date := "10Jan25", flight_number := some "SQ890",
    sector := some "SIN-HKG", origin := some "SIN", destination := some "HKG",
    duty_type := some "FLY", rpt := some "0800", sta := some "1200",
    duty_time := some "09:00", flight_time := some "04:00" }

/-- Return leg of the same-day turnaround. -/
def c3b : FlightRow :=
  { start_date := "10Jan25", flight_number := some "SQ891",
    sector := some "HKG-SIN", origin := some "HKG", destination := some "SIN",
    duty_type := some "FLY", std := some "1300", sta := some "1700",
    duty_time := some "09:00", flight_time := some "04:00" }

/-- An `SS`-coded standby entry used by the C2 partition witness. -/
def c2ssEx : FlightRow :=
  { start_date := "03Jan25", sector := some "SIN", duty_type := some "SS50",
    rpt := some "0600" }

/-- A home-base departure used by the C2 partition witness. -/
def c2flyEx : FlightRow :=
  { start_date := "04Jan25", flight_number := some "SQ350",
    sector := some "SIN-CDG", origin := some "SIN", destination := some "CDG",
    duty_type := some "FLY", rpt := some "2100", std := some "2200" }

/-- A previous `FLY` entry with the same flight number and sector as the
line `"SQ123 SIN-HKG 1200 1300"` but with no report time. -/
def c7prev : FlightRow :=
  { start_date := "01Jan25", flight_number := some "SQ123",
    sector := some "SIN-HKG", origin := some "SIN", destination := some "HKG",
    duty_type := some "FLY" }

/-! ## Claims -/

/-- C1: the spec asserts the stages compose and run without raising, but
`telegram_webhook` passes the `FlightRow` dataclass records emitted by
`parse_timesheet` to `group_trips`, whose loop reads `e.get("duty_type")`;
a `slots=True` dataclass has no `get` attribute, so on the §8 scenario text
(whose parse succeeds with two entries) the pipeline raises
`AttributeError`. -/
theorem c1_pipeline_attribute_error :
    run_pipeline c1text = .error .attributeError ∧
      (parse_timesheet c1text).map (fun p => p.entries.length) = .ok 2 := by
  constructor <;> decide

/-- C5 (claim right, code wrong): on the spec's own scenario line
`"05Jan25 SS50 0600 1400"` the standby branch of `_parse_row` evaluates
`sector[0]` on the empty result of `re.findall(r"\b[A-Z]{3}\b", line)` and
raises `IndexError` instead of returning the Standby entry with report
`0600` and departure `1400` that the claim (and the two time tokens found
on the line) describe. -/
theorem c5_standby_index_error :
    _parse_row "05Jan25" "05Jan25 SS50 0600 1400" none = .error .indexError ∧
      findallTimes "05Jan25 SS50 0600 1400" = ["0600", "1400"] ∧
      findallSingleSector "05Jan25 SS50 0600 1400" = [] := by
  refine ⟨by decide, by decide, by decide⟩

/-- C4 counterexample: on the §8 scenario input the parse and grouping are
as claimed, but the message renderer prints the raw report/arrival tokens
with a space before the flight number — the claimed line
`"01Jan - 02Jan | HKG | 09:00(SQ123) | 18:00(SQ124)"` appears nowhere in
the output. -/
theorem c4_message_format :
    parse_timesheet c4text = .ok { entries := [c4e1, c4e2], raw_text := c4text } ∧
      trips_to_message (group_trips [c4e1, c4e2]) = .ok c4msg ∧
      "01Jan - 02Jan | HKG | 09:00(SQ123) | 18:00(SQ124)" ∉ splitNL c4msg := by
  refine ⟨by decide, by decide, by decide⟩

/-- C4 as amended: the scenario input yields exactly two Flight entries and
one trip of length 2, and the message line rendered for that trip is
`"01Jan - 02Jan | HKG | 0900 (SQ123) | 1800 (SQ124)"` (raw `HHMM` tokens,
a space before each parenthesised flight number). -/
theorem c4_scenario_amended :
    parse_timesheet c4text = .ok { entries := [c4e1, c4e2], raw_text := c4text } ∧
      (c4e1.duty_type = some "FLY" ∧ c4e2.duty_type = some "FLY") ∧
      group_trips [c4e1, c4e2] = [[c4e1, c4e2]] ∧
      trips_to_message [[c4e1, c4e2]] = .ok c4msg ∧
      splitNL c4msg = ["Flights for *JANUARY 2025*:",
        "01Jan - 02Jan | HKG | 0900 (SQ123) | 1800 (SQ124)"] := by
  refine ⟨by decide, by decide, by decide, by decide, by decide⟩

/-- C2 counterexample: a standby entry whose duty code is the `STBY`
literal does not form a singleton trip — `group_trips` isolates only codes
starting with `"SS"`, so the entry is dropped entirely and the output's
concatenation misses it. -/
theorem c2_stby_dropped :
    c2stby.duty_type = some "STBY" ∧ group_trips [c2stby] = [] := by
  refine ⟨by decide, by decide⟩

/-- C3 counterexample: for the same-date reversed pair `c3a`/`c3b` the
row-matrix renderer emits two `Turnaround`-typed rows (one per flight),
not exactly one. -/
theorem c3_two_turnaround_rows :
    (trips_to_sheet_rows [[c3a, c3b]]).map (fun rows =>
      (rows.filter (fun r =>
        decide (r.get? 3 = some (Cell.str "Turnaround")))).length) = .ok 2 := by
  decide

/-- C7 counterexample: a two-time-token row continuing the same flight as
`c7prev` — whose previous entry has no report time, so the
report-without-departure pattern fails — is parsed with NO time fields
assigned at all, not with report and departure as the claim states. -/
theorem c7_sameflight_unassigned :
    _parse_row "02Jan25" "SQ123 SIN-HKG 1200 1300" (some c7prev) =
      .ok (some { start_date := "02Jan25", flight_number := some "SQ123",
                  sector := some "SIN-HKG", origin := some "SIN",
                  destination := some "HKG", duty_type := some "FLY",
                  raw_block := some "SQ123 SIN-HKG 1200 1300" }) := by
  decide

/-- C8 counterexample: a single raw line carrying two four-digit tokens,
parsed in isolation (no previous entry), yields an entry with BOTH
report and departure filled — more than one of the three time fields from
one line. -/
theorem c8_two_fields_one_line :
    (_parse_row "01Jan25" "SQ123 SIN-HKG 0900 1015" none).map
      (fun oe => oe.map (fun e => (e.rpt, e.std, e.sta))) =
      .ok (some (some "0900", some "1015", none)) := by
  decide

/-- C6 (the Continuation Merger is absent from the sources; modelled from
the spec, §4.2): when the next entry shares flight number and sector with
the immediately preceding kept entry, supplies only an arrival time (no
departure), and the preceding entry lacks an arrival, the single
left-to-right pass copies the arrival time onto the preceding entry, sets
its `arrival_date` to the continuation's date, and drops the continuation
row. -/
theorem c6_merge_fold (p e : FlightRow) (rest : List FlightRow)
    (h1 : p.flight_number.isSome = true)
    (h2 : p.flight_number = e.flight_number)
    (h3 : p.sector = e.sector)
    (h4 : truthyO e.sta = true)
    (h5 : truthyO e.std = false)
    (h6 : truthyO p.sta = false) :
    mergeEntries (p :: e :: rest) =
      mergeEntries ({ p with sta := e.sta,
                             arrival_date := some e.start_date } :: rest) := by
  have hf : foldsInto p e = true := by
    have h1e : e.flight_number.isSome = true := h2 ▸ h1
    simp [foldsInto, h1, h1e, h2, h3, h4, h5, h6]
  simp [mergeEntries, mergeLoop, hf]

/-- An outbound overnight leg missing its arrival. -/
def c6p : FlightRow :=
  { start_date := "01Jan25", flight_number := some "SQ26",
    sector := some "SIN-FRA", origin := some "SIN", destination := some "FRA",
    duty_type := some "FLY", rpt := some "2300" }

/-- The continuation row supplying only the arrival. -/
def c6e : FlightRow :=
  { start_date := "02Jan25", flight_number := some "SQ26",
    sector := some "SIN-FRA", origin := some "SIN", destination := some "FRA",
    duty_type := some "FLY", sta := some "0700" }

theorem c6_merge_fold_witness :
    mergeEntries [c6p, c6e] =
      mergeEntries [{ c6p with sta := some "0700",
                               arrival_date := some "02Jan25" }] :=
  c6_merge_fold c6p c6e [] rfl rfl rfl rfl rfl rfl

theorem ssHere_shape (l : List Char) (t : String) (h : ssHere l = some t) :
    ∃ ds, t = String.mk ('S' :: 'S' :: ds) := by
  unfold ssHere at h
  split at h
  · split at h
    · exact ⟨_, (by simpa using h.symm)⟩
    · simp at h
  · simp at h

/-- Every `some` result of the standby scanner is `SS` followed by text, or
the literal `STBY`. -/
theorem ssAux_shape : ∀ (fuel : Nat) (l : List Char) (s : String),
    ssAux fuel l = some s →
      (∃ ds, s = String.mk ('S' :: 'S' :: ds)) ∨ s = "STBY" := by
  intro fuel
  induction fuel with
  | zero => intro l s h; simp [ssAux] at h
  | succ f ih =>
    intro l s h
    cases l with
    | nil => simp [ssAux] at h
    | cons c rest =>
      rw [ssAux] at h
      split at h
      · next t hsh =>
        exact Or.inl ((by simpa using h.symm) ▸ ssHere_shape _ _ hsh)
      · split at h
        · exact Or.inr (by simpa using h.symm)
        · exact ih _ _ h

theorem searchStandby_ne_fly (line t : String)
    (h : searchStandby line = some t) : t ≠ "FLY" := by
  rcases ssAux_shape _ _ _ h with ⟨ds, rfl⟩ | rfl
  · intro he
    have hd := congrArg String.data he
    simp only [String.mk] at hd
    rcases List.cons.injEq .. ▸ hd with ⟨h1, -⟩
    exact absurd h1 (by decide)
  · decide

theorem searchOffDuty_ne_fly (line t : String)
    (h : searchOffDuty line = some t) : t ≠ "FLY" := by
  unfold searchOffDuty at h
  split at h
  · next hc =>
    have ht : line = t := by simpa using h
    subst ht
    rcases Bool.or_eq_true_iff.mp hc with hcc | hc2
    · rcases Bool.or_eq_true_iff.mp hcc with h1 | h2
      · rw [show line = "ATDO" by simpa using h1]; decide
      · rw [show line = "AALV" by simpa using h2]; decide
    · rw [show line = "OFFD" by simpa using hc2]; decide
  · simp at h

/-- C10: every entry `_parse_row` returns with duty type `FLY` has both
origin and destination set, and every entry it returns with a non-flight
duty type has neither set. -/
theorem c10_origin_destination (date line : String) (prev : Option FlightRow)
    (e : FlightRow) (h : _parse_row date line prev = .ok (some e)) :
    (e.duty_type = some "FLY" → e.origin.isSome ∧ e.destination.isSome) ∧
      (e.duty_type ≠ some "FLY" → e.origin = none ∧ e.destination = none) := by
  unfold _parse_row at h
  split at h
  · simp at h
  · split at h
    · next dutyTok hss =>
      split at h
      · simp at h
      · simp only [Except.ok.injEq, Option.some.injEq] at h
        subst h
        refine ⟨fun hft => ?_, fun _ => ⟨rfl, rfl⟩⟩
        exact absurd (by simpa using hft) (searchStandby_ne_fly line dutyTok hss)
    · split at h
      · next offTok hod =>
        simp only [Except.ok.injEq, Option.some.injEq] at h
        subst h
        refine ⟨fun hft => ?_, fun _ => ⟨rfl, rfl⟩⟩
        exact absurd (by simpa using hft) (searchOffDuty_ne_fly line offTok hod)
      · split at h
        · simp only [Except.ok.injEq, Option.some.injEq] at h
          subst h
          refine ⟨fun hft => ?_, fun _ => ⟨rfl, rfl⟩⟩
          simp at hft
        · split at h
          · simp only [] at h
            split at h
            · simp at h
            · simp only [Except.ok.injEq, Option.some.injEq] at h
              subst h
              exact ⟨fun _ => ⟨rfl, rfl⟩, fun hne => absurd rfl hne⟩
          · simp at h

/-- A concrete instantiation of the C10 invariant: the flight line and an
off-duty line. -/
theorem c10_origin_destination_witness :
    (∃ e, _parse_row "01Jan25" "SQ123 SIN-HKG 0900 1015" none = .ok (some e) ∧
      e.duty_type = some "FLY" ∧ e.origin.isSome ∧ e.destination.isSome) := by
  refine ⟨{ start_date := "01Jan25", flight_number := some "SQ123",
            sector := some "SIN-HKG", origin := some "SIN",
            destination := some "HKG", duty_type := some "FLY",
            rpt := some "0900", std := some "1015",
            raw_block := some "SQ123 SIN-HKG 0900 1015" }, by decide, rfl, ?_⟩
  exact (c10_origin_destination "01Jan25" "SQ123 SIN-HKG 0900 1015" none _
    (by decide)).1 rfl

/-- C7 as amended: for a flight row with exactly two four-digit tokens and
at most three duration tokens (four or more raise `ValueError` in the
duration unpacking), the parser assigns departure+arrival when continuing
the same flight whose previous entry has report-but-no-departure,
departure+arrival on a turnaround, report+departure when not continuing
the same flight — but a row continuing the same flight whose previous
entry does not match the report-without-departure pattern gets NO time
fields assigned (not report+departure as the claim states). -/
theorem c7_two_times_amended (date line : String) (prev : Option FlightRow)
    (fnRaw o d t1 t2 : String)
    (hh : isHeaderLine line = false)
    (hss : searchStandby line = none)
    (hod : searchOffDuty line = none)
    (hlo : searchLayover line = false)
    (hfn : searchFlightNumber line = some fnRaw)
    (hsec : searchSector line = some (o, d))
    (ht : findallTimes line = [t1, t2])
    (hdl : (findallDurations line).length ≤ 3) :
    (sameFlightAsPrev prev (removeSpaces fnRaw) o d = true →
      prevHasRptNoStd prev = true →
      (_parse_row date line prev).map (Option.map fun e => (e.rpt, e.std, e.sta)) =
        .ok (some (none, some t1, some t2))) ∧
    (sameFlightAsPrev prev (removeSpaces fnRaw) o d = true →
      prevHasRptNoStd prev = false →
      (_parse_row date line prev).map (Option.map fun e => (e.rpt, e.std, e.sta)) =
        .ok (some (none, none, none))) ∧
    (sameFlightAsPrev prev (removeSpaces fnRaw) o d = false →
      isTurnaroundPrev prev (removeSpaces fnRaw) o d date = true →
      (_parse_row date line prev).map (Option.map fun e => (e.rpt, e.std, e.sta)) =
        .ok (some (none, some t1, some t2))) ∧
    (sameFlightAsPrev prev (removeSpaces fnRaw) o d = false →
      isTurnaroundPrev prev (removeSpaces fnRaw) o d date = false →
      (_parse_row date line prev).map (Option.map fun e => (e.rpt, e.std, e.sta)) =
        .ok (some (some t1, some t2, none))) := by
  rcases hdur : findallDurations line with _ | ⟨d1, _ | ⟨d2, _ | ⟨d3, _ | ⟨d4, drest⟩⟩⟩⟩
  · refine ⟨fun h1 h2 => ?_, fun h1 h2 => ?_, fun h1 h2 => ?_, fun h1 h2 => ?_⟩ <;>
    · unfold _parse_row
      simp only [hh, hss, hod, hlo, hfn, hsec, ht, hdur]
      simp +decide [assignTimes, assignDurations, h1, h2, Except.map]
  · refine ⟨fun h1 h2 => ?_, fun h1 h2 => ?_, fun h1 h2 => ?_, fun h1 h2 => ?_⟩ <;>
    · unfold _parse_row
      simp only [hh, hss, hod, hlo, hfn, hsec, ht, hdur]
      simp +decide [assignTimes, assignDurations, h1, h2, Except.map]
  · refine ⟨fun h1 h2 => ?_, fun h1 h2 => ?_, fun h1 h2 => ?_, fun h1 h2 => ?_⟩ <;>
    · unfold _parse_row
      simp only [hh, hss, hod, hlo, hfn, hsec, ht, hdur]
      simp +decide [assignTimes, assignDurations, h1, h2, Except.map]
  · refine ⟨fun h1 h2 => ?_, fun h1 h2 => ?_, fun h1 h2 => ?_, fun h1 h2 => ?_⟩ <;>
    · unfold _parse_row
      simp only [hh, hss, hod, hlo, hfn, hsec, ht, hdur]
      simp +decide [assignTimes, assignDurations, h1, h2, Except.map]
  · rw [hdur] at hdl
    simp only [List.length_cons] at hdl
    omega

theorem c7_two_times_witness :
    (_parse_row "05Feb25" "SQ777 SIN-NRT 1100 1200" none).map
      (Option.map fun e => (e.rpt, e.std, e.sta)) =
      .ok (some (some "1100", some "1200", none)) :=
  (c7_two_times_amended "05Feb25" "SQ777 SIN-NRT 1100 1200" none
    "SQ777" "SIN" "NRT" "1100" "1200"
    (by decide) (by decide) (by decide) (by decide) (by decide) (by decide)
    (by decide) (by decide)).2.2.2 rfl rfl

/-- Number of the three clock fields that are filled on an entry. -/
def timeFieldsFilled (e : FlightRow) : Nat :=
  ([e.rpt, e.std, e.sta].filter Option.isSome).length

theorem get3_filled_le (l : List String) :
    ([l.get? 0, l.get? 1, l.get? 2].filter Option.isSome).length ≤ l.length := by
  match l with
  | [] => simp
  | [a] => simp
  | [a, b] => simp
  | a :: b :: c :: ts => simp

theorem assignTimes_filled_le (sameF turn : Bool) (prev : Option FlightRow)
    (o d : String) (times : List String) :
    ([(assignTimes sameF turn prev o d times).1,
      (assignTimes sameF turn prev o d times).2.1,
      (assignTimes sameF turn prev o d times).2.2].filter
        Option.isSome).length ≤ times.length := by
  rcases times with _ | ⟨t1, ts1⟩
  · simp [assignTimes]
  rcases ts1 with _ | ⟨t2, ts2⟩
  · simp only [assignTimes]
    split
    · split <;> simp
    · split
      · simp
      · split <;> simp
  rcases ts2 with _ | ⟨t3, ts⟩
  · simp only [assignTimes]
    split
    · split <;> simp
    · split
      · simp
      · split <;> simp
  · simp [assignTimes]

/-- C8 as amended: a single raw line fills at most as many of
report/departure/arrival as it carries four-digit time tokens — more than
one of the three can be filled from one line exactly when the line itself
supplies that many tokens (the claimed bound of one is wrong); the merge
stage may later populate more on the same logical entry. -/
theorem c8_times_bound_amended (date line : String) (prev : Option FlightRow)
    (e : FlightRow) (h : _parse_row date line prev = .ok (some e)) :
    timeFieldsFilled e ≤ (findallTimes line).length := by
  unfold _parse_row at h
  split at h
  · simp at h
  · split at h
    · split at h
      · simp at h
      · simp only [Except.ok.injEq, Option.some.injEq] at h
        subst h
        simpa [timeFieldsFilled] using get3_filled_le (findallTimes line)
    · split at h
      · simp only [Except.ok.injEq, Option.some.injEq] at h
        subst h
        simp [timeFieldsFilled]
      · split at h
        · simp only [Except.ok.injEq, Option.some.injEq] at h
          subst h
          simp [timeFieldsFilled]
        · split at h
          · simp only [] at h
            split at h
            · simp at h
            · simp only [Except.ok.injEq, Option.some.injEq] at h
              subst h
              simpa [timeFieldsFilled] using assignTimes_filled_le _ _ prev _ _ _
          · simp at h

theorem c8_times_bound_witness :
    timeFieldsFilled
      { start_date := "01Jan25", flight_number := some "SQ55",
        sector := some "SIN-LHR", origin := some "SIN",
        destination := some "LHR", duty_type := some "FLY",
        rpt := some "0700", std := some "0800",
        raw_block := some "SQ55 SIN-LHR 0700 0800" } ≤
      (findallTimes "SQ55 SIN-LHR 0700 0800").length :=
  c8_times_bound_amended "01Jan25" "SQ55 SIN-LHR 0700 0800" none _ (by decide)

theorem isSSDuty_fly : isSSDuty (some "FLY") = false := by decide

theorem isEmpty_app_single {α : Type} (l : List α) (a : α) :
    (l ++ [a]).isEmpty = false := by
  cases l <;> rfl

/-- Joining the grouper loop's output appends the open trip and then the
entries the state machine keeps. -/
theorem groupLoop_join (es : List FlightRow) :
    ∀ (trips : List (List FlightRow)) (current : List FlightRow),
      (groupLoop trips current es).join =
        trips.join ++ current ++ keptEntries (!current.isEmpty) es := by
  induction es with
  | nil =>
    intro trips current
    by_cases hc : current = [] <;> simp [groupLoop, keptEntries, hc]
  | cons e es ih =>
    intro trips current
    rw [groupLoop, keptEntries]
    by_cases hc : current = []
    · subst hc
      by_cases hss : isSSDuty e.duty_type = true
      · simp [hss, ih]
      · by_cases hfly : e.duty_type = some "FLY"
        · by_cases horg : e.origin = some "SIN"
          · simp [hss, hfly, horg, ih, isSSDuty_fly]
          · by_cases hdst : e.destination = some "SIN"
            · simp [hss, hfly, horg, hdst, ih, isSSDuty_fly]
            · simp [hss, hfly, horg, hdst, ih, isSSDuty_fly]
        · simp [hss, hfly, ih]
    · have hne : current.isEmpty = false := by
        simpa [List.isEmpty_iff] using hc
      by_cases hss : isSSDuty e.duty_type = true
      · simp [hss, hc, hne, ih]
      · by_cases hfly : e.duty_type = some "FLY"
        · by_cases hcl : e.destination = some "SIN" ∧ truthyO e.sta = true
          · simp [hss, hfly, hc, hne, hcl.1, hcl.2, ih, isSSDuty_fly]
          · have h2 := ih trips (current ++ [e])
            rw [isEmpty_app_single] at h2
            by_cases hd : e.destination = some "SIN"
            · have hsta : ¬ truthyO e.sta = true := fun hx => hcl ⟨hd, hx⟩
              simp [hss, hfly, hc, hne, hd, hsta, h2, isSSDuty_fly]
            · simp [hss, hfly, hc, hne, hd, h2, isSSDuty_fly]
        · simp [hss, hfly, ih]

/-- The kept entries form a subsequence of the input. -/
theorem keptEntries_sublist (es : List FlightRow) :
    ∀ o : Bool, List.Sublist (keptEntries o es) es := by
  induction es with
  | nil => intro o; simp [keptEntries]
  | cons e es ih =>
    intro o
    rw [keptEntries]
    split
    · exact (ih false).cons₂ e
    · split
      · exact (ih o).cons e
      · split
        · exact (ih false).cons₂ e
        · split
          · exact (ih true).cons₂ e
          · split
            · exact (ih _).cons₂ e
            · exact (ih false).cons e

/-- Trips already emitted stay in the grouper's output. -/
theorem groupLoop_mem (es : List FlightRow) :
    ∀ (trips : List (List FlightRow)) (current : List FlightRow)
      (t : List FlightRow), t ∈ trips → t ∈ groupLoop trips current es := by
  induction es with
  | nil =>
    intro trips current t ht
    by_cases hc : current = [] <;> simp [groupLoop, hc, ht]
  | cons e es ih =>
    intro trips current t ht
    rw [groupLoop]
    split
    · exact ih _ _ _ (by simp [ht])
    · split
      · exact ih _ _ _ ht
      · split
        · exact ih _ _ _ (by simp [ht])
        · split
          · exact ih _ _ _ ht
          · split
            · split
              · exact ih _ _ _ (by simp [ht])
              · exact ih _ _ _ ht
            · exact ih _ _ _ ht

/-- Every entry whose duty code starts with `SS` ends up as a singleton
trip in the grouper's output. -/
theorem groupLoop_ss_singleton (es : List FlightRow) :
    ∀ (trips : List (List FlightRow)) (current : List FlightRow)
      (e : FlightRow), e ∈ es → isSSDuty e.duty_type = true →
      [e] ∈ groupLoop trips current es := by
  induction es with
  | nil => intro _ _ _ h; simp at h
  | cons a es ih =>
    intro trips current e he hss
    rcases List.mem_cons.mp he with rfl | he'
    · rw [groupLoop, if_pos (by simpa using hss)]
      exact groupLoop_mem es _ _ _ (by simp)
    · rw [groupLoop]
      split
      · exact ih _ _ _ he' hss
      · split
        · exact ih _ _ _ he' hss
        · split
          · exact ih _ _ _ he' hss
          · split
            · exact ih _ _ _ he' hss
            · split
              · split
                · exact ih _ _ _ he' hss
                · exact ih _ _ _ he' hss
              · exact ih _ _ _ he' hss

/-- C2 as amended: the in-order concatenation of `group_trips`' output is
exactly the subsequence of the input selected by its open/close state
machine (so trips are pairwise disjoint and no kept entry is duplicated),
and every standby entry whose duty code starts with `SS` forms its own
singleton trip.  Standby entries carrying the `STBY` literal, and flight
entries met with no open trip that neither depart nor arrive at the home
base, are dropped — not only non-flight/non-standby entries, as the claim
states. -/
theorem c2_partition_amended (es : List FlightRow) :
    (group_trips es).join = keptEntries false es ∧
      List.Sublist (keptEntries false es) es ∧
      ∀ e ∈ es, isSSDuty e.duty_type = true → [e] ∈ group_trips es := by
  refine ⟨?_, keptEntries_sublist es false, ?_⟩
  · simpa using groupLoop_join es [] []
  · intro e he hss
    exact groupLoop_ss_singleton es [] [] e he hss

/-- Concrete instantiation of the partition property on a two-entry list
(one `SS50` standby, one flight). -/
theorem c2_partition_witness :
    (group_trips [c2ssEx, c2flyEx]).join = keptEntries false [c2ssEx, c2flyEx] ∧
      [c2ssEx] ∈ group_trips [c2ssEx, c2flyEx] :=
  ⟨(c2_partition_amended [c2ssEx, c2flyEx]).1,
    (c2_partition_amended [c2ssEx, c2flyEx]).2.2 c2ssEx (by simp) (by decide)⟩

theorem except_ok_bind {ε α β : Type} (a : α) (f : α → Except ε β) :
    (Except.ok a >>= f) = f a := rfl

theorem except_pure_eq {ε α : Type} (a : α) :
    (pure a : Except ε α) = Except.ok a := rfl

theorem dictGet_head (k : Date) (v : List FlightRow)
    (rest : List (Date × List FlightRow)) :
    dictGet k ((k, v) :: rest) = v := by
  simp [dictGet, List.find?]

/-- C9: a single-flight trip departing the home base with
`report_time = "2200"` and `arrival_time = "0130"` (the clock wrapped past
midnight), whose duration fields split cleanly and whose decimal-hours
computation succeeds (as it does on every parser-produced duration), is
rendered as exactly two rows: a departure-day row with `"-"` in the
arrival-time field, and a next-calendar-day row carrying the arrival
time; the duty/flight duration columns carry the trip's (single)
first-departure/last-arrival values on both rows, per the first/last-row
rule. -/
theorem c9_overnight_split (sd dst : String) (d : Date)
    (fn sec stdv ft dt fdpv rb : Option String) (dh dm fh fm : String)
    (cdec : Cell)
    (hd : _parse_date_str sd = .ok d)
    (hdt : _split_duration dt = .ok (dh, dm))
    (hft : _split_duration ft = .ok (fh, fm))
    (hdec : _decimal_hours dh dm = .ok cdec) :
    trips_to_sheet_rows [[⟨sd, none, fn, sec, some "SIN", some dst, some "FLY",
        some "2200", stdv, some "0130", ft, dt, fdpv, rb⟩]] =
      .ok [[Cell.str (fmtMDY d), .str "SIN", .str dst, .str "Layover",
            .str "22:00", .str "-", .str "", .str "", .str dh, .str dm,
            cdec, .str fh, .str fm],
           [Cell.str (fmtMDY (addDays d 1)), .str "", .str dst, .str "Layover",
            .str "", .str "01:30", .str "", .str "", .str dh, .str dm,
            cdec, .str fh, .str fm]] := by
  simp only [trips_to_sheet_rows, List.foldlM_cons, List.foldlM_nil, sheetTrip,
    List.filter, except_ok_bind, except_pure_eq, hd, hdt, hft, hdec]
  simp +decide [except_ok_bind, except_pure_eq, hd, hdt, hft, hdec, dayStep,
    dictAppend, dictGet_head, List.range_succ, List.range_zero, addDays,
    _is_overnight, pyInt, pyStrip, _format_time, truthyO, digitVal,
    turnRowsFor, populateTrip, wipeRow, setDur, updateLastMatchingM,
    updateFirstMatchingM, cellEqOpt]

theorem c9_overnight_split_witness :
    trips_to_sheet_rows [[⟨"15Mar25", none, some "SQ26", some "SIN-FRA",
        some "SIN", some "FRA", some "FLY", some "2200", none, some "0130",
        some "08:15", some "10:30", none, none⟩]] =
      .ok [[Cell.str "03/15/2025", .str "SIN", .str "FRA", .str "Layover",
            .str "22:00", .str "-", .str "", .str "", .str "10", .str "30",
            .num "10" "30", .str "08", .str "15"],
           [Cell.str "03/16/2025", .str "", .str "FRA", .str "Layover",
            .str "", .str "01:30", .str "", .str "", .str "10", .str "30",
            .num "10" "30", .str "08", .str "15"]] :=
  c9_overnight_split "15Mar25" "FRA" ⟨2025, 3, 15⟩ (some "SQ26")
    (some "SIN-FRA") none (some "08:15") (some "10:30") none none
    "10" "30" "08" "15" (Cell.num "10" "30")
    (by decide) (by decide) (by decide) (by decide)

/-- C3 as amended: for a trip of exactly two same-date Flight entries whose
sectors are reverses of each other (A→B then B→A) and whose duration
fields split cleanly with a succeeding decimal-hours computation (as every
parser-produced duration does), the row-matrix renderer emits exactly two
rows for that date, each typed `Turnaround` (one per flight) — not exactly
one row as the claim states, and no `Layover` rows. -/
theorem c3_turnaround_amended (sd A B : String) (d : Date)
    (fn1 sec1 rpt1 std1 sta1 ft1 dt1 fdp1 rb1 : Option String)
    (fn2 sec2 rpt2 std2 sta2 ft2 dt2 fdp2 rb2 : Option String)
    (dh1 dm1 fh1 fm1 dh2 dm2 fh2 fm2 : String) (c1 c2 : Cell)
    (hd : _parse_date_str sd = .ok d)
    (h1 : _split_duration dt1 = .ok (dh1, dm1))
    (h2 : _split_duration ft1 = .ok (fh1, fm1))
    (h3 : _split_duration dt2 = .ok (dh2, dm2))
    (h4 : _split_duration ft2 = .ok (fh2, fm2))
    (hdec1 : _decimal_hours dh1 dm1 = .ok c1)
    (hdec2 : _decimal_hours dh2 dm2 = .ok c2) :
    ∃ r1 r2, trips_to_sheet_rows
        [[⟨sd, none, fn1, sec1, some A, some B, some "FLY",
           rpt1, std1, sta1, ft1, dt1, fdp1, rb1⟩,
          ⟨sd, none, fn2, sec2, some B, some A, some "FLY",
           rpt2, std2, sta2, ft2, dt2, fdp2, rb2⟩]] = .ok [r1, r2] ∧
      r1.get? 3 = some (Cell.str "Turnaround") ∧
      r2.get? 3 = some (Cell.str "Turnaround") := by
  by_cases hA : A = "SIN" <;> by_cases hB : B = "SIN" <;>
  · simp only [trips_to_sheet_rows, List.foldlM_cons, List.foldlM_nil,
      sheetTrip, List.filter, except_ok_bind, except_pure_eq, hd, h1, h2, h3,
      h4, hdec1, hdec2]
    simp +decide [except_ok_bind, except_pure_eq, hd, h1, h2, h3, h4, hdec1,
      hdec2, dayStep, dictAppend, dictGet_head, List.range_succ,
      List.range_zero, addDays, turnRowsFor, populateTrip, wipeRow, setDur,
      updateLastMatchingM, updateFirstMatchingM, cellEqOpt, _format_time,
      hA, hB]
    refine ⟨_, _, ⟨rfl, rfl⟩, ?_, ?_⟩ <;> rfl

theorem c3_turnaround_witness :
    ∃ r1 r2, trips_to_sheet_rows
        [[⟨"10Jan25", none, some "SQ890", some "SIN-HKG", some "SIN",
           some "HKG", some "FLY", some "0800", none, some "1200",
           some "04:00", some "09:00", none, none⟩,
          ⟨"10Jan25", none, some "SQ891", some "HKG-SIN", some "HKG",
           some "SIN", some "FLY", none, some "1300", some "1700",
           some "04:00", some "09:00", none, none⟩]] = .ok [r1, r2] ∧
      r1.get? 3 = some (Cell.str "Turnaround") ∧
      r2.get? 3 = some (Cell.str "Turnaround") :=
  c3_turnaround_amended "10Jan25" "SIN" "HKG" ⟨2025, 1, 10⟩
    (some "SQ890") (some "SIN-HKG") (some "0800") none (some "1200")
    (some "04:00") (some "09:00") none none
    (some "SQ891") (some "HKG-SIN") none (some "1300") (some "1700")
    (some "04:00") (some "09:00") none none
    "09" "00" "04" "00" "09" "00" "04" "00"
    (Cell.num "09" "00") (Cell.num "09" "00")
    (by decide) (by decide) (by decide) (by decide) (by decide)
    (by decide) (by decide)

end Timesheet
